import Mathlib

/-
  Verification development for the DataHive AI verification pipeline
  (backend/app/ai_verification/services.py).

  Shallow embedding conventions:
  * Python floats are modelled as rationals (ℚ).
  * External library calls (hashlib, base64, PyPDF2, pandas, python-docx,
    antiword, Python float() parsing) are modelled as fields of a `Libs`
    record: pure functions supplied as parameters, with `Option` results
    standing for calls that may raise.
  * Each LLM invocation (`chain.invoke` / `model.invoke`) is modelled as an
    oracle function of exactly the data interpolated into its prompt,
    returning `Option` (`none` = the call raised an exception).
  * The Redis cache is a map from key strings to optional stored scores;
    the 24h TTL window is the lifetime of that map (claims about behaviour
    within the TTL, with no expiry in between, quantify over one map).
  * `verify`, `verify_text_document`, `verify_image`, `verify_csv_document`
    return bare scores (ℚ), exactly as in the source, which returns floats.
-/

namespace DataHive

/-- Embeds `SimilarityScore(BaseModel)`: `score: float`, `reason: str`. -/
structure SimilarityScore where
  score : ℚ
  reason : String
  deriving DecidableEq

/-- Embeds the campaign fields read by the pipeline
(`campaign.description`, `campaign.data_requirements`). -/
structure Campaign where
  description : String
  data_requirements : String
  deriving DecidableEq

/-- A document as seen by `verify`: the file path (used for MIME guessing
and extension dispatch) plus the file's byte content. -/
structure Document where
  path : String
  bytes : List Nat
  deriving DecidableEq

/-- External Python library primitives used by services.py, modelled as
pure parameters. `Option` results model calls that may raise. -/
structure Libs where
  sha256Hex : List Nat → String
  b64encode : List Nat → String
  parseFloat : String → Option ℚ
  pdfPages : List Nat → Option (List String)
  readUtf8 : List Nat → Option String
  docxParagraphs : List Nat → Option (List String)
  antiword : List Nat → Option String
  readCsv : List Nat → Option (List (List (Option String)))
  dfToString : List (List (Option String)) → String

/-- The Redis store restricted to one TTL window: key to stored score. -/
def Cache : Type := String → Option ℚ

/-- Embeds `cache_key = f"{wallet_address}:{file_hash}"`. -/
def cache_key (wallet_address file_hash : String) : String :=
  wallet_address ++ ":" ++ file_hash

/-- Embeds `check_cache`: `redis_pool.get(cache_key)`, `float(...)` on a
hit, `None` on a miss. -/
def check_cache (c : Cache) (wallet_address file_hash : String) : Option ℚ :=
  c (cache_key wallet_address file_hash)

/-- Embeds `store_in_cache`: `redis_pool.setex(cache_key, 86400, score)`. -/
def store_in_cache (c : Cache) (wallet_address file_hash : String) (score : ℚ) : Cache :=
  fun k => if k = cache_key wallet_address file_hash then some score else c k

/-- Embeds `hash_document`: SHA-256 hex digest of the file's bytes
(chunked reading changes nothing about the digest of the full stream). -/
def hash_document (libs : Libs) (d : Document) : String :=
  libs.sha256Hex d.bytes

/-- Character-level suffix test, modelling Python's `str.endswith`. -/
def ends_with (s suffix : String) : Bool :=
  suffix.data.isSuffixOf s.data

/-- Character-level prefix test, modelling Python's `str.startswith`. -/
def starts_with (s head : String) : Bool :=
  head.data.isPrefixOf s.data

/-- Embeds `mimetypes.guess_type(file_path)[0]` of the Python standard
library for the extensions relevant to this system: the stdlib guesses
purely from the path's extension, never from file content. -/
def guess_mime (path : String) : Option String :=
  if ends_with path ".png" then some "image/png"
  else if ends_with path ".jpg" then some "image/jpeg"
  else if ends_with path ".jpeg" then some "image/jpeg"
  else if ends_with path ".gif" then some "image/gif"
  else if ends_with path ".webp" then some "image/webp"
  else if ends_with path ".pdf" then some "application/pdf"
  else if ends_with path ".csv" then some "text/csv"
  else if ends_with path ".txt" then some "text/plain"
  else if ends_with path ".docx" then some "application/vnd.openxmlformats-officedocument.wordprocessingml.document"
  else if ends_with path ".doc" then some "application/msword"
  else if ends_with path ".html" then some "text/html"
  else none

/-- Embeds the guard `mime_type and mime_type.startswith("image")`. -/
def mime_is_image (m : Option String) : Bool :=
  match m with
  | some s => starts_with s "image"
  | none => false

/-- Embeds `file_path.endswith(('.pdf', '.csv', '.txt', '.doc', '.docx'))`. -/
def text_doc_ext (path : String) : Bool :=
  ends_with path ".pdf" || ends_with path ".csv" || ends_with path ".txt" ||
  ends_with path ".doc" || ends_with path ".docx"

/-- Embeds the guard
`mime_type and (mime_type.startswith("text") or file_path.endswith((...)))`. -/
def mime_is_text_doc (m : Option String) (path : String) : Bool :=
  match m with
  | some s => starts_with s "text" || text_doc_ext path
  | none => false

/-- The pipeline a document can be routed to. The source defines three
workflows (text, image, csv); `Branch.csv` exists so that unreachability
of the CSV workflow from `verify` is a contentful statement. -/
inductive Branch
  | image
  | text
  | csv
  deriving DecidableEq

/-- The dispatch decision taken by `verify` (lines 483-493): the image
pipeline on an image MIME guess, otherwise the text pipeline (both the
`elif` text arm and the fail-open `else` arm call `verify_text_document`). -/
def verify_branch (d : Document) : Branch :=
  if mime_is_image (guess_mime d.path) then Branch.image else Branch.text

/-- Embeds `_extract_doc_content`: antiword output on returncode 0, else
empty string; exceptions also yield the empty string. -/
def extract_doc_content (libs : Libs) (bytes : List Nat) : String :=
  match libs.antiword bytes with
  | some out => out
  | none => ""

/-- Embeds `df.dropna(how='all')`: drop rows whose cells are all missing. -/
def dropna_all_rows (df : List (List (Option String))) : List (List (Option String)) :=
  df.filter (fun row => !(row.all (fun cell => cell.isNone)))

/-- Embeds `df.applymap(lambda x: x.strip() if isinstance(x, str) else x)`. -/
def strip_string_cells (df : List (List (Option String))) : List (List (Option String)) :=
  df.map (fun row => row.map (fun cell => cell.map (fun s => s.trim)))

/-- Embeds `_extract_csv_content`: `pd.read_csv`, drop all-empty rows,
trim string cells, render with `to_string(index=False)`; any exception
yields the empty string. -/
def extract_csv_content (libs : Libs) (bytes : List Nat) : String :=
  match libs.readCsv bytes with
  | some df => libs.dfToString (strip_string_cells (dropna_all_rows df))
  | none => ""

/-- Embeds `_extract_text_content`: suffix-dispatched extraction with the
source's branch order (.pdf, .csv, .txt, .docx, .doc), empty string for
unsupported extensions, and empty string when the parser raises. -/
def extract_text_content (libs : Libs) (d : Document) : String :=
  if ends_with d.path ".pdf" then
    match libs.pdfPages d.bytes with
    | some pages => String.intercalate "\n" (pages.filter (fun p => p != ""))
    | none => ""
  else if ends_with d.path ".csv" then
    extract_csv_content libs d.bytes
  else if ends_with d.path ".txt" then
    match libs.readUtf8 d.bytes with
    | some s => s
    | none => ""
  else if ends_with d.path ".docx" then
    match libs.docxParagraphs d.bytes with
    | some ps => String.intercalate "\n" ps
    | none => ""
  else if ends_with d.path ".doc" then
    extract_doc_content libs d.bytes
  else ""

/-- Embeds `_encode_image`: base64 of the file bytes. -/
def encode_image (libs : Libs) (bytes : List Nat) : String :=
  libs.b64encode bytes

/-- Embeds `_parse_image_response`: `float(response.strip())` wrapped into
a `SimilarityScore`, or score 0 with reason "Invalid response" on failure. -/
def parse_image_response (libs : Libs) (response : String) : SimilarityScore :=
  match libs.parseFloat response.trim with
  | some s => { score := s, reason := "Image analysis" }
  | none => { score := 0, reason := "Invalid response" }

/-- Embeds the `TextState` TypedDict of `_create_text_workflow`. -/
structure TextState where
  content : String
  campaign_desc : String
  campaign_reqs : String
  result_eval_a : Option SimilarityScore
  result_eval_b : Option SimilarityScore
  final : Option SimilarityScore

/-- LLM oracles of the text workflow. Each function receives exactly the
data interpolated into the corresponding prompt; `none` models a raised
exception in `chain.invoke`. -/
structure TextOracles where
  evalA : String → String → String → Option SimilarityScore
  evalB : String → String → String → Option SimilarityScore
  arb : ℚ → String → ℚ → String → Option SimilarityScore

/-- Embeds text-workflow `evaluator_a`: oracle result on success, degraded
`{score: 0, reason: "Evaluation failed"}` on exception. -/
def text_evaluator_a (o : TextOracles) (s : TextState) : TextState :=
  match o.evalA s.campaign_desc s.campaign_reqs s.content with
  | some r => { s with result_eval_a := some r }
  | none => { s with result_eval_a := some { score := 0, reason := "Evaluation failed" } }

/-- Embeds text-workflow `evaluator_b` (same degrade-on-exception rule). -/
def text_evaluator_b (o : TextOracles) (s : TextState) : TextState :=
  match o.evalB s.campaign_desc s.campaign_reqs s.content with
  | some r => { s with result_eval_b := some r }
  | none => { s with result_eval_b := some { score := 0, reason := "Evaluation failed" } }

/-- Embeds text-workflow `arbiter`: reads both evaluator results with the
source's defaults (0.0 and "N/A" when a result is `None`), consults the
arbiter oracle, and degrades to `{score: 0, reason: "Arbitration failed"}`
when that call raises. -/
def text_arbiter (o : TextOracles) (s : TextState) : TextState :=
  let a_score : ℚ := match s.result_eval_a with | some r => r.score | none => 0
  let a_reason : String := match s.result_eval_a with | some r => r.reason | none => "N/A"
  let b_score : ℚ := match s.result_eval_b with | some r => r.score | none => 0
  let b_reason : String := match s.result_eval_b with | some r => r.reason | none => "N/A"
  match o.arb a_score a_reason b_score b_reason with
  | some r => { s with final := some r }
  | none => { s with final := some { score := 0, reason := "Arbitration failed" } }

/-- Embeds the compiled text StateGraph: sequential edges
node_eval_text_a to node_eval_text_b to node_arbiter to END. -/
def run_text_workflow (o : TextOracles) (s : TextState) : TextState :=
  text_arbiter o (text_evaluator_b o (text_evaluator_a o s))

/-- The initial state passed to `workflow.invoke` in `verify_text_document`. -/
def init_text_state (content desc reqs : String) : TextState :=
  { content := content, campaign_desc := desc, campaign_reqs := reqs,
    result_eval_a := none, result_eval_b := none, final := none }

/-- Embeds the access `result["final"].score`. The workflows always set
`final` (the arbiter node runs last and always stores a result), so the
`none` arm is dead code kept only to make the projection total. -/
def final_score (x : Option SimilarityScore) : ℚ :=
  match x with
  | some r => r.score
  | none => 0

/-- Embeds `verify_text_document`: extract, short-circuit to 0.0 on empty
content (`if not content`), otherwise run the text workflow and return the
final score. The source returns a bare float. -/
def verify_text_document (libs : Libs) (o : TextOracles) (campaign : Campaign) (d : Document) : ℚ :=
  let content := extract_text_content libs d
  if content = "" then 0
  else final_score (run_text_workflow o
    (init_text_state content campaign.description campaign.data_requirements)).final

/-- Embeds the `ImageState` TypedDict of `_create_image_workflow`. -/
structure ImageState where
  image_b64 : String
  campaign_desc : String
  eval_image_a : Option SimilarityScore
  eval_image_b : Option SimilarityScore
  final : Option SimilarityScore

/-- LLM oracles of the image workflow: the evaluators receive the campaign
description and the base64 image and produce a raw response string (to be
parsed by `_parse_image_response`); the arbiter is as in the text flow. -/
structure ImageOracles where
  evalA : String → String → Option String
  evalB : String → String → Option String
  arb : ℚ → String → ℚ → String → Option SimilarityScore

/-- Embeds image-workflow `evaluator_a`: parses the model response on
success, degrades to score 0 with reason "Evaluation failed in evaluator A"
on exception. -/
def image_evaluator_a (libs : Libs) (o : ImageOracles) (s : ImageState) : ImageState :=
  match o.evalA s.campaign_desc s.image_b64 with
  | some resp => { s with eval_image_a := some (parse_image_response libs resp) }
  | none => { s with eval_image_a := some { score := 0, reason := "Evaluation failed in evaluator A" } }

/-- Embeds image-workflow `evaluator_b`. -/
def image_evaluator_b (libs : Libs) (o : ImageOracles) (s : ImageState) : ImageState :=
  match o.evalB s.campaign_desc s.image_b64 with
  | some resp => { s with eval_image_b := some (parse_image_response libs resp) }
  | none => { s with eval_image_b := some { score := 0, reason := "Evaluation failed in evaluator B" } }

/-- Embeds image-workflow `arbiter`: `if not a or not b: raise ValueError`
(caught by the node's own except, degrading to "Arbitration failed"); with
both results present the arbiter oracle is consulted, itself degrading to
"Arbitration failed" on exception. Degraded evaluator results are truthy
model instances, so they do not trigger the raise. -/
def image_arbiter (o : ImageOracles) (s : ImageState) : ImageState :=
  match s.eval_image_a, s.eval_image_b with
  | some a, some b =>
    match o.arb a.score a.reason b.score b.reason with
    | some r => { s with final := some r }
    | none => { s with final := some { score := 0, reason := "Arbitration failed" } }
  | _, _ => { s with final := some { score := 0, reason := "Arbitration failed" } }

/-- Embeds the compiled image StateGraph: node_image_a to node_image_b to
node_arbiter to END. -/
def run_image_workflow (libs : Libs) (o : ImageOracles) (s : ImageState) : ImageState :=
  image_arbiter o (image_evaluator_b libs o (image_evaluator_a libs o s))

/-- Embeds `verify_image`: base64-encode the bytes, run the image
workflow, return `result["final"].score` as a bare float. -/
def verify_image (libs : Libs) (o : ImageOracles) (campaign : Campaign) (d : Document) : ℚ :=
  let b64 := encode_image libs d.bytes
  final_score (run_image_workflow libs o
    { image_b64 := b64, campaign_desc := campaign.description,
      eval_image_a := none, eval_image_b := none, final := none }).final

/-- Embeds the `CsvState` TypedDict of `_create_csv_workflow`. -/
structure CsvState where
  csv_content : String
  campaign_desc : String
  eval_csv_a : Option SimilarityScore
  eval_csv_b : Option SimilarityScore
  final : Option SimilarityScore

/-- LLM oracles of the CSV workflow: evaluators receive the campaign
description and the rendered CSV content. -/
structure CsvOracles where
  evalA : String → String → Option SimilarityScore
  evalB : String → String → Option SimilarityScore
  arb : ℚ → String → ℚ → String → Option SimilarityScore

/-- Embeds CSV-workflow `evaluator_a`. -/
def csv_evaluator_a (o : CsvOracles) (s : CsvState) : CsvState :=
  match o.evalA s.campaign_desc s.csv_content with
  | some r => { s with eval_csv_a := some r }
  | none => { s with eval_csv_a := some { score := 0, reason := "Evaluation failed in evaluator A" } }

/-- Embeds CSV-workflow `evaluator_b`. -/
def csv_evaluator_b (o : CsvOracles) (s : CsvState) : CsvState :=
  match o.evalB s.campaign_desc s.csv_content with
  | some r => { s with eval_csv_b := some r }
  | none => { s with eval_csv_b := some { score := 0, reason := "Evaluation failed in evaluator B" } }

/-- Embeds CSV-workflow `arbiter` (same shape as the image arbiter). -/
def csv_arbiter (o : CsvOracles) (s : CsvState) : CsvState :=
  match s.eval_csv_a, s.eval_csv_b with
  | some a, some b =>
    match o.arb a.score a.reason b.score b.reason with
    | some r => { s with final := some r }
    | none => { s with final := some { score := 0, reason := "Arbitration failed" } }
  | _, _ => { s with final := some { score := 0, reason := "Arbitration failed" } }

/-- Embeds the compiled CSV StateGraph: node_csv_a to node_csv_b to
node_csv_arbiter to END. -/
def run_csv_workflow (o : CsvOracles) (s : CsvState) : CsvState :=
  csv_arbiter o (csv_evaluator_b o (csv_evaluator_a o s))

/-- Embeds `verify_csv_document`: extract cleaned CSV, short-circuit to
0.0 on empty content, otherwise run the CSV workflow. Defined from the
source; `verify` never calls it (see the claim about CSV routing). -/
def verify_csv_document (libs : Libs) (o : CsvOracles) (campaign : Campaign) (d : Document) : ℚ :=
  let csv_content := extract_csv_content libs d.bytes
  if csv_content = "" then 0
  else final_score (run_csv_workflow o
    { csv_content := csv_content, campaign_desc := campaign.description,
      eval_csv_a := none, eval_csv_b := none, final := none }).final

/-- All oracles of one `verify` call, plus the fairness draw
`random.uniform(0.95, 1.05)` of that call. -/
structure Oracles where
  text : TextOracles
  image : ImageOracles
  csv : CsvOracles
  fairness : ℚ

/-- Embeds lines 495-497 of `verify`:
`adjusted_score = (raw_score * 1.30) / fairness_factor` followed by
`normalized_score = min(adjusted_score, 100)`. -/
def fairness_normalize (raw fairness_factor : ℚ) : ℚ :=
  min (raw * (13 / 10) / fairness_factor) 100

/-- Embeds the dispatch of `verify` (lines 483-493): image MIME guess goes
to `verify_image`; the text-ish arm and the fail-open default arm both go
to `verify_text_document`. -/
def raw_score (libs : Libs) (o : Oracles) (campaign : Campaign) (d : Document) : ℚ :=
  let mime := guess_mime d.path
  if mime_is_image mime then verify_image libs o.image campaign d
  else if mime_is_text_doc mime d.path then verify_text_document libs o.text campaign d
  else verify_text_document libs o.text campaign d

/-- The cache-miss tail of `verify`: dispatch, fairness-normalize, store,
return. Returns the score together with the updated cache. -/
def verify_compute (libs : Libs) (o : Oracles) (cache : Cache) (campaign : Campaign)
    (d : Document) (wallet_address file_hash : String) : ℚ × Cache :=
  let normalized := fairness_normalize (raw_score libs o campaign d) o.fairness
  (normalized, store_in_cache cache wallet_address file_hash normalized)

/-- Embeds `verify` (lines 476-500). The walrus guard
`if cached := await self.check_cache(...)` is Python truthiness: a stored
`0.0` is falsy and falls through to a full recomputation; only a nonzero
stored score short-circuits. The function returns a bare float score. -/
def verify (libs : Libs) (o : Oracles) (cache : Cache) (campaign : Campaign)
    (d : Document) (wallet_address : String) : ℚ × Cache :=
  let file_hash := hash_document libs d
  match check_cache cache wallet_address file_hash with
  | some cached =>
    if cached ≠ 0 then (cached, cache)
    else verify_compute libs o cache campaign d wallet_address file_hash
  | none => verify_compute libs o cache campaign d wallet_address file_hash

/-- Concrete library instance used to evaluate the model on closed inputs.
The cache and dispatch logic never depend on the specifics of these
functions, only on their determinism, which any function has. -/
def libs0 : Libs :=
  { sha256Hex := fun _ => "HASH"
    b64encode := fun _ => "B64"
    parseFloat := fun _ => none
    pdfPages := fun _ => none
    readUtf8 := fun _ => some "hello"
    docxParagraphs := fun _ => none
    antiword := fun _ => none
    readCsv := fun _ => none
    dfToString := fun _ => "" }

/-- A concrete campaign. -/
def camp0 : Campaign := { description := "desc", data_requirements := "reqs" }

/-- A concrete plain-text document. -/
def doc_txt : Document := { path := "a.txt", bytes := [104, 105] }

/-- A concrete document with an unrecognized extension. -/
def doc_bin : Document := { path := "data.bin", bytes := [0, 1] }

/-- Two concrete image-path documents with the same path and different bytes. -/
def doc_png1 : Document := { path := "p.png", bytes := [0] }

/-- Second image-path document, byte content differing from `doc_png1`. -/
def doc_png2 : Document := { path := "p.png", bytes := [9, 9] }

/-- The empty cache. -/
def cache0 : Cache := fun _ => none

/-- Image oracles whose calls all raise. -/
def image_none : ImageOracles :=
  { evalA := fun _ _ => none, evalB := fun _ _ => none, arb := fun _ _ _ _ => none }

/-- CSV oracles whose calls all raise. -/
def csv_none : CsvOracles :=
  { evalA := fun _ _ => none, evalB := fun _ _ => none, arb := fun _ _ _ _ => none }

/-- Text oracles where both evaluators and the arbiter succeed, the
arbiter scoring 50. -/
def text_ok : TextOracles :=
  { evalA := fun _ _ _ => some { score := 30, reason := "a" }
    evalB := fun _ _ _ => some { score := 40, reason := "b" }
    arb := fun _ _ _ _ => some { score := 50, reason := "ok" } }

/-- Text oracles where the evaluators succeed but the arbiter call raises. -/
def text_arb_fail : TextOracles :=
  { evalA := fun _ _ _ => some { score := 30, reason := "a" }
    evalB := fun _ _ _ => some { score := 40, reason := "b" }
    arb := fun _ _ _ _ => none }

/-- Oracle bundle for a call where the text arbiter returns 50 and the
fairness draw is exactly 1.00. -/
def oracles_ok : Oracles :=
  { text := text_ok, image := image_none, csv := csv_none, fairness := 1 }

/-- Oracle bundle for a call whose text arbiter call raises. -/
def oracles_arb_fail : Oracles :=
  { text := text_arb_fail, image := image_none, csv := csv_none, fairness := 1 }

/-- A second, different oracle bundle (different scores and fairness
draw), modelling a later call where the LLM answers differently. -/
def oracles_alt : Oracles :=
  { text :=
      { evalA := fun _ _ _ => some { score := 90, reason := "x" }
        evalB := fun _ _ _ => some { score := 90, reason := "y" }
        arb := fun _ _ _ _ => some { score := 20, reason := "z" } }
    image := image_none, csv := csv_none, fairness := 21 / 20 }

/-- A cache holding a stored score of 0 for the key of `doc_txt`. -/
def cache_zero : Cache := store_in_cache cache0 "0xW" "HASH" 0

/-- A concrete CSV document. -/
def doc_csv : Document := { path := "t.csv", bytes := [3] }

theorem check_store_self (c : Cache) (w h : String) (v : ℚ) :
    check_cache (store_in_cache c w h v) w h = some v := by
  simp [check_cache, store_in_cache]

theorem verify_of_miss (libs : Libs) (o : Oracles) (cache : Cache) (campaign : Campaign)
    (d : Document) (w : String)
    (h : check_cache cache w (hash_document libs d) = none) :
    verify libs o cache campaign d w =
      verify_compute libs o cache campaign d w (hash_document libs d) := by
  simp [verify, h]

theorem verify_of_zero_hit (libs : Libs) (o : Oracles) (cache : Cache) (campaign : Campaign)
    (d : Document) (w : String)
    (h : check_cache cache w (hash_document libs d) = some 0) :
    verify libs o cache campaign d w =
      verify_compute libs o cache campaign d w (hash_document libs d) := by
  simp [verify, h]

theorem verify_of_hit (libs : Libs) (o : Oracles) (cache : Cache) (campaign : Campaign)
    (d : Document) (w : String) (v : ℚ)
    (h : check_cache cache w (hash_document libs d) = some v) (hv : v ≠ 0) :
    verify libs o cache campaign d w = (v, cache) := by
  simp [verify, h, hv]

theorem verify_compute_fst (libs : Libs) (o : Oracles) (cache : Cache) (campaign : Campaign)
    (d : Document) (w fh : String) :
    (verify_compute libs o cache campaign d w fh).1 =
      fairness_normalize (raw_score libs o campaign d) o.fairness := rfl

theorem verify_compute_snd (libs : Libs) (o : Oracles) (cache : Cache) (campaign : Campaign)
    (d : Document) (w fh : String) :
    (verify_compute libs o cache campaign d w fh).2 =
      store_in_cache cache w fh
        (fairness_normalize (raw_score libs o campaign d) o.fairness) := rfl

theorem raw_score_of_not_image (libs : Libs) (o : Oracles) (campaign : Campaign) (d : Document)
    (h : mime_is_image (guess_mime d.path) = false) :
    raw_score libs o campaign d = verify_text_document libs o.text campaign d := by
  simp only [raw_score]
  rw [h]
  simp

/-- Claim C1 (code bug). The claim says `verify` returns an Evaluation
record with both a float score and a string reason. In the source,
`AIVerificationSystem.verify` returns a bare float (`normalized_score`),
while the active routes read `evaluation.score` and `evaluation.reason`
from its result. This theorem evaluates the embedded `verify` at the
failing input: the result is a bare score (here 65, stored bare in the
cache as well); no reason string exists anywhere in the return value. -/
theorem C1_verify_returns_bare_score :
    (verify libs0 oracles_ok cache0 camp0 doc_txt "0xW").1 = 65 ∧
    (verify libs0 oracles_ok cache0 camp0 doc_txt "0xW").2 (cache_key "0xW" "HASH") = some 65 := by
  have hv := verify_of_miss libs0 oracles_ok cache0 camp0 doc_txt "0xW" (by decide)
  have hr : raw_score libs0 oracles_ok camp0 doc_txt = 50 := by decide
  have hf : fairness_normalize 50 oracles_ok.fairness = 65 := by
    norm_num [fairness_normalize, oracles_ok]
  constructor
  · rw [hv, verify_compute_fst, hr, hf]
  · rw [hv, verify_compute_snd, hr, hf]
    have hh : hash_document libs0 doc_txt = "HASH" := rfl
    rw [hh]
    simp [store_in_cache]

/-- Claim C2, counterexample. Both calls use the same wallet and the
byte-identical document within one TTL window (one cache map, no expiry).
The first call's arbiter invocation raises, so the pipeline degrades to a
raw score of 0, the call returns 0 and stores 0. Because `verify` guards
the cache hit with Python truthiness (`if cached := ...`), the stored 0 is
treated as a miss: the second call recomputes and returns 65, not the
first call's score, refuting the claimed idempotence as stated. -/
theorem C2_counterexample :
    (verify libs0 oracles_arb_fail cache0 camp0 doc_txt "0xW").1 = 0 ∧
    (verify libs0 oracles_ok
        (verify libs0 oracles_arb_fail cache0 camp0 doc_txt "0xW").2
        camp0 doc_txt "0xW").1 = 65 := by
  have hraw : raw_score libs0 oracles_arb_fail camp0 doc_txt = 0 := by decide
  have h1 : (verify libs0 oracles_arb_fail cache0 camp0 doc_txt "0xW").1 = 0 := by
    rw [verify_of_miss libs0 oracles_arb_fail cache0 camp0 doc_txt "0xW" (by decide),
      verify_compute_fst, hraw]
    norm_num [fairness_normalize]
  refine ⟨h1, ?_⟩
  have h2 : (verify libs0 oracles_arb_fail cache0 camp0 doc_txt "0xW").2 =
      store_in_cache cache0 "0xW" "HASH" (fairness_normalize 0 1) := by
    rw [verify_of_miss libs0 oracles_arb_fail cache0 camp0 doc_txt "0xW" (by decide),
      verify_compute_snd, hraw]
    rfl
  rw [h2]
  have hz : fairness_normalize 0 1 = 0 := by norm_num [fairness_normalize]
  rw [hz]
  rw [verify_of_zero_hit libs0 oracles_ok _ camp0 doc_txt "0xW" (by decide), verify_compute_fst]
  have hr : raw_score libs0 oracles_ok camp0 doc_txt = 50 := by decide
  rw [hr]
  norm_num [fairness_normalize, oracles_ok]

/-- Claim C2, amended: provided the first call's returned score is
nonzero, a second `verify` call with the same wallet and byte-identical
content within the TTL (no expiry in between, modelled as the same cache
map) returns the same score, whatever the second call's oracles do. The
source has no reason sentinel at all, since `verify` returns a bare float
(see claim C1). -/
theorem C2_amended_idempotent_for_nonzero :
    ∀ (libs : Libs) (o1 o2 : Oracles) (cache : Cache) (campaign : Campaign)
      (d1 d2 : Document) (wallet : String),
      d2.bytes = d1.bytes →
      (verify libs o1 cache campaign d1 wallet).1 ≠ 0 →
      (verify libs o2 (verify libs o1 cache campaign d1 wallet).2 campaign d2 wallet).1 =
        (verify libs o1 cache campaign d1 wallet).1 := by
  intro libs o1 o2 cache campaign d1 d2 wallet hb hnz
  have hkey : hash_document libs d2 = hash_document libs d1 := by
    simp [hash_document, hb]
  cases hc : check_cache cache wallet (hash_document libs d1) with
  | some v =>
    by_cases hv0 : v = 0
    · subst hv0
      rw [verify_of_zero_hit libs o1 cache campaign d1 wallet hc] at hnz ⊢
      have hlook : check_cache
          (verify_compute libs o1 cache campaign d1 wallet (hash_document libs d1)).2
          wallet (hash_document libs d2) =
          some (verify_compute libs o1 cache campaign d1 wallet (hash_document libs d1)).1 := by
        rw [hkey]
        exact check_store_self cache wallet (hash_document libs d1) _
      rw [verify_of_hit libs o2 _ campaign d2 wallet _ hlook hnz]
    · rw [verify_of_hit libs o1 cache campaign d1 wallet v hc hv0] at hnz ⊢
      have hlook : check_cache cache wallet (hash_document libs d2) = some v := by
        rw [hkey]; exact hc
      rw [verify_of_hit libs o2 cache campaign d2 wallet v hlook hnz]
  | none =>
    rw [verify_of_miss libs o1 cache campaign d1 wallet hc] at hnz ⊢
    have hlook : check_cache
        (verify_compute libs o1 cache campaign d1 wallet (hash_document libs d1)).2
        wallet (hash_document libs d2) =
        some (verify_compute libs o1 cache campaign d1 wallet (hash_document libs d1)).1 := by
      rw [hkey]
      exact check_store_self cache wallet (hash_document libs d1) _
    rw [verify_of_hit libs o2 _ campaign d2 wallet _ hlook hnz]

/-- Witness for the amended claim C2: a concrete first call returning 65
followed by a second call with different oracles returning the same 65. -/
theorem C2_amended_witness :
    (verify libs0 oracles_ok cache0 camp0 doc_txt "0xW").1 ≠ 0 ∧
    (verify libs0 oracles_alt
        (verify libs0 oracles_ok cache0 camp0 doc_txt "0xW").2
        camp0 doc_txt "0xW").1 =
      (verify libs0 oracles_ok cache0 camp0 doc_txt "0xW").1 := by
  have h65 : (verify libs0 oracles_ok cache0 camp0 doc_txt "0xW").1 = 65 := by
    rw [verify_of_miss libs0 oracles_ok cache0 camp0 doc_txt "0xW" (by decide),
      verify_compute_fst]
    have hr : raw_score libs0 oracles_ok camp0 doc_txt = 50 := by decide
    rw [hr]
    norm_num [fairness_normalize, oracles_ok]
  have hnz : (verify libs0 oracles_ok cache0 camp0 doc_txt "0xW").1 ≠ 0 := by
    rw [h65]; norm_num
  exact ⟨hnz, C2_amended_idempotent_for_nonzero libs0 oracles_ok oracles_alt cache0 camp0
    doc_txt doc_txt "0xW" rfl hnz⟩

/-- Claim C3 (confirmed). In each of the three consensus workflows (text,
image, csv), even when both evaluator calls raise (degrading to
zero-score fallbacks), the arbiter node still executes: the workflow
terminates with `final` set to exactly what the arbiter produced from the
degraded inputs — the arbiter oracle's answer when it succeeds, the
degraded arbitration fallback when it raises. The embedded workflows are
total functions, so no exception escapes. -/
theorem C3_arbiter_always_runs :
    ∀ (libs : Libs) (arbT arbI arbC : ℚ → String → ℚ → String → Option SimilarityScore)
      (content desc reqs b64 csvc : String),
      (run_text_workflow
          { evalA := fun _ _ _ => none, evalB := fun _ _ _ => none, arb := arbT }
          (init_text_state content desc reqs)).final =
        some (match arbT 0 "Evaluation failed" 0 "Evaluation failed" with
          | some r => r
          | none => { score := 0, reason := "Arbitration failed" }) ∧
      (run_image_workflow libs
          { evalA := fun _ _ => none, evalB := fun _ _ => none, arb := arbI }
          { image_b64 := b64, campaign_desc := desc,
            eval_image_a := none, eval_image_b := none, final := none }).final =
        some (match arbI 0 "Evaluation failed in evaluator A" 0 "Evaluation failed in evaluator B" with
          | some r => r
          | none => { score := 0, reason := "Arbitration failed" }) ∧
      (run_csv_workflow
          { evalA := fun _ _ => none, evalB := fun _ _ => none, arb := arbC }
          { csv_content := csvc, campaign_desc := desc,
            eval_csv_a := none, eval_csv_b := none, final := none }).final =
        some (match arbC 0 "Evaluation failed in evaluator A" 0 "Evaluation failed in evaluator B" with
          | some r => r
          | none => { score := 0, reason := "Arbitration failed" }) := by
  intro libs arbT arbI arbC content desc reqs b64 csvc
  refine ⟨?_, ?_, ?_⟩
  · cases h : arbT 0 "Evaluation failed" 0 "Evaluation failed" <;>
      simp [run_text_workflow, text_evaluator_a, text_evaluator_b, text_arbiter,
        init_text_state, h]
  · cases h : arbI 0 "Evaluation failed in evaluator A" 0 "Evaluation failed in evaluator B" <;>
      simp [run_image_workflow, image_evaluator_a, image_evaluator_b, image_arbiter, h]
  · cases h : arbC 0 "Evaluation failed in evaluator A" 0 "Evaluation failed in evaluator B" <;>
      simp [run_csv_workflow, csv_evaluator_a, csv_evaluator_b, csv_arbiter, h]

/-- Claim C4 (code bug). When extraction yields empty content,
`verify_text_document` does short-circuit before any evaluator call — its
result is 0 and is independent of every oracle — but the source returns
the bare float 0.0: no Evaluation record and no reason string (the claimed
reason "Text content extraction failed" appears nowhere in the code). -/
theorem C4_extraction_failure_short_circuit :
    ∀ (libs : Libs) (o o2 : TextOracles) (campaign : Campaign) (d : Document),
      extract_text_content libs d = "" →
      verify_text_document libs o campaign d = 0 ∧
      verify_text_document libs o campaign d = verify_text_document libs o2 campaign d := by
  intro libs o o2 campaign d h
  constructor <;> simp [verify_text_document, h]

/-- Witness for claim C4: a concrete document with an unrecognized
extension extracts to the empty string, and verification returns the bare
0 without consulting any oracle. -/
theorem C4_witness :
    extract_text_content libs0 doc_bin = "" ∧
    (verify_text_document libs0 text_ok camp0 doc_bin = 0 ∧
     verify_text_document libs0 text_ok camp0 doc_bin =
       verify_text_document libs0 text_arb_fail camp0 doc_bin) :=
  ⟨by decide,
   C4_extraction_failure_short_circuit libs0 text_ok text_arb_fail camp0 doc_bin (by decide)⟩

/-- Claim C5 (confirmed). On a cache miss, for every raw dispatched score
R and fairness factor f in [0.95, 1.05], `verify` returns
min(R * 1.30 / f, 100); in particular raw score 50 with fairness factor
1.00 gives adjusted score 65 and final score 65. -/
theorem C5_fairness_formula :
    ∀ (libs : Libs) (o : Oracles) (cache : Cache) (campaign : Campaign)
      (d : Document) (wallet : String),
      check_cache cache wallet (hash_document libs d) = none →
      19 / 20 ≤ o.fairness → o.fairness ≤ 21 / 20 →
      ((verify libs o cache campaign d wallet).1 =
        min (raw_score libs o campaign d * (13 / 10) / o.fairness) 100 ∧
       (raw_score libs o campaign d = 50 → o.fairness = 1 →
        raw_score libs o campaign d * (13 / 10) / o.fairness = 65 ∧
        (verify libs o cache campaign d wallet).1 = 65)) := by
  intro libs o cache campaign d wallet hmiss hf1 hf2
  have hv := verify_of_miss libs o cache campaign d wallet hmiss
  constructor
  · rw [hv, verify_compute_fst]
    rfl
  · intro hr hf
    constructor
    · rw [hr, hf]
      norm_num
    · rw [hv, verify_compute_fst, hr, hf]
      norm_num [fairness_normalize]

/-- Witness for claim C5 at a concrete miss with raw score 50 and
fairness draw 1.00. -/
theorem C5_witness :
    check_cache cache0 "0xW" (hash_document libs0 doc_txt) = none ∧
    (19 / 20 : ℚ) ≤ oracles_ok.fairness ∧ oracles_ok.fairness ≤ 21 / 20 ∧
    raw_score libs0 oracles_ok camp0 doc_txt = 50 ∧
    (verify libs0 oracles_ok cache0 camp0 doc_txt "0xW").1 = 65 := by
  refine ⟨by decide, by norm_num [oracles_ok], by norm_num [oracles_ok], by decide, ?_⟩
  exact ((C5_fairness_formula libs0 oracles_ok cache0 camp0 doc_txt "0xW" (by decide)
    (by norm_num [oracles_ok]) (by norm_num [oracles_ok])).2 (by decide) rfl).2

/-- Claim C6, counterexample. The claim asserts that every raw score
R ≤ 100·0.95/1.3 never saturates (final < 100 for every fairness factor in
[0.95, 1.05]). At the boundary itself this fails: R = 100·(19/20)/(13/10)
with fairness factor 19/20 = 0.95 normalizes to exactly 100. -/
theorem C6_counterexample :
    fairness_normalize (100 * (19 / 20) / (13 / 10)) (19 / 20) = 100 ∧
    ¬ fairness_normalize (100 * (19 / 20) / (13 / 10)) (19 / 20) < 100 := by
  have h : fairness_normalize (100 * (19 / 20) / (13 / 10)) (19 / 20) = 100 := by
    norm_num [fairness_normalize]
  exact ⟨h, by rw [h]; exact lt_irrefl 100⟩

/-- Claim C6, amended: for every fairness factor f in [0.95, 1.05], every
raw score R ≥ 100·1.05/1.3 normalizes to exactly 100, and every raw score
R strictly below 100·0.95/1.3 never saturates (final < 100). The only
change forced by the counterexample is the strict inequality on the lower
boundary. -/
theorem C6_amended_saturation :
    ∀ (R f : ℚ), 19 / 20 ≤ f → f ≤ 21 / 20 →
      ((100 * (21 / 20) / (13 / 10) ≤ R → fairness_normalize R f = 100) ∧
       (R < 100 * (19 / 20) / (13 / 10) → fairness_normalize R f < 100)) := by
  intro R f hf1 hf2
  have hf0 : (0 : ℚ) < f := lt_of_lt_of_le (by norm_num) hf1
  constructor
  · intro hR
    have h100 : (100 : ℚ) ≤ R * (13 / 10) / f := by
      rw [le_div_iff₀ hf0]
      nlinarith
    show min (R * (13 / 10) / f) 100 = 100
    exact min_eq_right h100
  · intro hR
    have hx : R * (13 / 10) / f < 100 := by
      rw [div_lt_iff₀ hf0]
      nlinarith
    show min (R * (13 / 10) / f) 100 < 100
    exact lt_of_le_of_lt (min_le_left _ _) hx

/-- Witness for the amended claim C6: fairness factor 1 with a raw score
of 90 (above the upper boundary, saturates to 100) and with a raw score of
50 (strictly below the lower boundary, stays under 100). -/
theorem C6_amended_witness :
    ((19 : ℚ) / 20 ≤ 1 ∧ (1 : ℚ) ≤ 21 / 20) ∧
    fairness_normalize 90 1 = 100 ∧ fairness_normalize 50 1 < 100 :=
  ⟨⟨by norm_num, by norm_num⟩,
   (C6_amended_saturation 90 1 (by norm_num) (by norm_num)).1 (by norm_num),
   (C6_amended_saturation 50 1 (by norm_num) (by norm_num)).2 (by norm_num)⟩

/-- Claim C7 (confirmed). On a cache miss, for every raw dispatched score
in [0, 100] and fairness factor in [0.95, 1.05], the normalized score
returned by `verify` lies in [0, 100]. -/
theorem C7_final_score_in_range :
    ∀ (libs : Libs) (o : Oracles) (cache : Cache) (campaign : Campaign)
      (d : Document) (wallet : String),
      check_cache cache wallet (hash_document libs d) = none →
      0 ≤ raw_score libs o campaign d → raw_score libs o campaign d ≤ 100 →
      19 / 20 ≤ o.fairness → o.fairness ≤ 21 / 20 →
      0 ≤ (verify libs o cache campaign d wallet).1 ∧
      (verify libs o cache campaign d wallet).1 ≤ 100 := by
  intro libs o cache campaign d wallet hmiss h0 h100 hf1 hf2
  rw [verify_of_miss libs o cache campaign d wallet hmiss, verify_compute_fst]
  have hf0 : (0 : ℚ) < o.fairness := lt_of_lt_of_le (by norm_num) hf1
  constructor
  · show 0 ≤ min (raw_score libs o campaign d * (13 / 10) / o.fairness) 100
    exact le_min (div_nonneg (mul_nonneg h0 (by norm_num)) hf0.le) (by norm_num)
  · show min (raw_score libs o campaign d * (13 / 10) / o.fairness) 100 ≤ 100
    exact min_le_right _ _

/-- Witness for claim C7 at a concrete miss with raw score 50. -/
theorem C7_witness :
    check_cache cache0 "0xW" (hash_document libs0 doc_txt) = none ∧
    0 ≤ raw_score libs0 oracles_ok camp0 doc_txt ∧
    raw_score libs0 oracles_ok camp0 doc_txt ≤ 100 ∧
    (0 ≤ (verify libs0 oracles_ok cache0 camp0 doc_txt "0xW").1 ∧
     (verify libs0 oracles_ok cache0 camp0 doc_txt "0xW").1 ≤ 100) := by
  have hr : raw_score libs0 oracles_ok camp0 doc_txt = 50 := by decide
  refine ⟨by decide, by rw [hr]; norm_num, by rw [hr]; norm_num, ?_⟩
  exact C7_final_score_in_range libs0 oracles_ok cache0 camp0 doc_txt "0xW" (by decide)
    (by rw [hr]; norm_num) (by rw [hr]; norm_num)
    (by norm_num [oracles_ok]) (by norm_num [oracles_ok])

/-- Claim C8 (confirmed). A stored score of 0 is treated as a cache miss:
the hit guard is Python truthiness, so `verify` does not short-circuit but
recomputes the full pipeline and overwrites the entry, exactly as on a
miss — a zero score is never served from the cache. -/
theorem C8_zero_cache_entry_is_miss :
    ∀ (libs : Libs) (o : Oracles) (cache : Cache) (campaign : Campaign)
      (d : Document) (wallet : String),
      check_cache cache wallet (hash_document libs d) = some 0 →
      (verify libs o cache campaign d wallet).1 =
        fairness_normalize (raw_score libs o campaign d) o.fairness ∧
      (verify libs o cache campaign d wallet).2 =
        store_in_cache cache wallet (hash_document libs d)
          (fairness_normalize (raw_score libs o campaign d) o.fairness) := by
  intro libs o cache campaign d wallet h
  rw [verify_of_zero_hit libs o cache campaign d wallet h]
  exact ⟨rfl, rfl⟩

/-- Witness for claim C8: a concrete cache storing 0 for the document's
key, on which `verify` recomputes the pipeline. -/
theorem C8_witness :
    check_cache cache_zero "0xW" (hash_document libs0 doc_txt) = some 0 ∧
    ((verify libs0 oracles_ok cache_zero camp0 doc_txt "0xW").1 =
      fairness_normalize (raw_score libs0 oracles_ok camp0 doc_txt) oracles_ok.fairness ∧
     (verify libs0 oracles_ok cache_zero camp0 doc_txt "0xW").2 =
      store_in_cache cache_zero "0xW" (hash_document libs0 doc_txt)
        (fairness_normalize (raw_score libs0 oracles_ok camp0 doc_txt) oracles_ok.fairness)) :=
  ⟨by decide,
   C8_zero_cache_entry_is_miss libs0 oracles_ok cache_zero camp0 doc_txt "0xW" (by decide)⟩

/-- Claim C9 (confirmed). The dispatch in `verify` never selects the CSV
workflow: every document is routed to the image or the text pipeline. A
`.csv` document (whose stdlib MIME guess is "text/csv") is extracted by
`_extract_csv_content` — the cleaned CSV rendering — through the text
pipeline's extraction dispatch, and `verify` scores it through
`verify_text_document`; `verify_csv_document` is never invoked. -/
theorem C9_csv_workflow_unreachable :
    ∀ (libs : Libs) (o : Oracles) (cache : Cache) (campaign : Campaign)
      (d : Document) (wallet : String),
      verify_branch d ≠ Branch.csv ∧
      (ends_with d.path ".csv" = true → ends_with d.path ".pdf" = false →
       guess_mime d.path = some "text/csv" →
       (extract_text_content libs d = extract_csv_content libs d.bytes ∧
        (check_cache cache wallet (hash_document libs d) = none →
         (verify libs o cache campaign d wallet).1 =
           fairness_normalize (verify_text_document libs o.text campaign d) o.fairness))) := by
  intro libs o cache campaign d wallet
  constructor
  · by_cases h : mime_is_image (guess_mime d.path) = true <;> simp [verify_branch, h]
  · intro hcsv hpdf hmime
    constructor
    · simp [extract_text_content, hpdf, hcsv]
    · intro hmiss
      rw [verify_of_miss libs o cache campaign d wallet hmiss, verify_compute_fst]
      have himg : mime_is_image (guess_mime d.path) = false := by
        rw [hmime]
        decide
      rw [raw_score_of_not_image libs o campaign d himg]

/-- Witness for claim C9 at a concrete `.csv` document. -/
theorem C9_witness :
    verify_branch doc_csv ≠ Branch.csv ∧
    extract_text_content libs0 doc_csv = extract_csv_content libs0 doc_csv.bytes ∧
    (verify libs0 oracles_ok cache0 camp0 doc_csv "0xW").1 =
      fairness_normalize (verify_text_document libs0 oracles_ok.text camp0 doc_csv)
        oracles_ok.fairness := by
  refine ⟨(C9_csv_workflow_unreachable libs0 oracles_ok cache0 camp0 doc_csv "0xW").1, ?_, ?_⟩
  · exact ((C9_csv_workflow_unreachable libs0 oracles_ok cache0 camp0 doc_csv "0xW").2
      (by decide) (by decide) (by decide)).1
  · exact ((C9_csv_workflow_unreachable libs0 oracles_ok cache0 camp0 doc_csv "0xW").2
      (by decide) (by decide) (by decide)).2 (by decide)

/-- Claim C10 (confirmed). Pipeline routing is a function of the file
path alone: two documents with the same path take the same branch
whatever their bytes, and on a miss `verify`'s raw score is produced by
the branch-selected processor, so content can only influence the score,
never the dispatch decision. -/
theorem C10_routing_is_path_function :
    ∀ (d1 d2 : Document) (libs : Libs) (o : Oracles) (cache : Cache)
      (campaign : Campaign) (wallet : String),
      (d1.path = d2.path → verify_branch d1 = verify_branch d2) ∧
      (check_cache cache wallet (hash_document libs d1) = none →
        (verify libs o cache campaign d1 wallet).1 =
          fairness_normalize
            (if verify_branch d1 = Branch.image then verify_image libs o.image campaign d1
             else verify_text_document libs o.text campaign d1) o.fairness) := by
  intro d1 d2 libs o cache campaign wallet
  constructor
  · intro h
    unfold verify_branch
    rw [h]
  · intro hmiss
    rw [verify_of_miss libs o cache campaign d1 wallet hmiss, verify_compute_fst]
    by_cases himg : mime_is_image (guess_mime d1.path) = true
    · have hb : verify_branch d1 = Branch.image := by simp [verify_branch, himg]
      rw [hb]
      simp only [raw_score]
      simp [himg]
    · have hF : mime_is_image (guess_mime d1.path) = false := by
        simpa using himg
      have hb : verify_branch d1 = Branch.text := by simp [verify_branch, hF]
      rw [hb, raw_score_of_not_image libs o campaign d1 hF]
      simp

/-- Witness for claim C10: two same-path, different-bytes image documents
take the same branch, and a concrete miss computes through the selected
branch. -/
theorem C10_witness :
    verify_branch doc_png1 = verify_branch doc_png2 ∧
    (verify libs0 oracles_ok cache0 camp0 doc_png1 "0xW").1 =
      fairness_normalize
        (if verify_branch doc_png1 = Branch.image
         then verify_image libs0 oracles_ok.image camp0 doc_png1
         else verify_text_document libs0 oracles_ok.text camp0 doc_png1)
        oracles_ok.fairness :=
  ⟨(C10_routing_is_path_function doc_png1 doc_png2 libs0 oracles_ok cache0 camp0 "0xW").1 rfl,
   (C10_routing_is_path_function doc_png1 doc_png2 libs0 oracles_ok cache0 camp0 "0xW").2
     (by decide)⟩

end DataHive
